import Mathlib

/-!
Shallow embedding of the event-correlation core of `src/main.rs` (diski):
the status-token classifier `State::from_substates`, the deduplicating
state tracker of the event-loop state-change branches, the biased
`select!` multiplexer, the job correlator `job_wait`, and the
user-intent branch (authorization gate plus the disconnect and
enable-automounting actions).

Every external await (a bus round trip) is modelled as an explicit
parameter: the result of each call is an `Except String _` input,
signal streams are lists of items, and a Rust `panic!` or a failing
`.unwrap()` is modelled as `Option.none` in the result type.
-/

namespace Diski

/-- The `enum State` of src/main.rs (lines 196-205). -/
inductive State
  | Mounted
  | Mounting
  | Unmounting
  | Dead
  | Waiting
  | Running
  | Failed
  deriving DecidableEq

/-- `State::from_substates` (lines 207-219): the match on the status
token. `none` models the fall-through arm
`panic!("Unexpected active state")`. -/
def State.from_substates (input : String) : Option State :=
  if input = "mounted" ∨ input = "mounting-done" then some State.Mounted
  else if input = "mounting" then some State.Mounting
  else if input = "unmounting" then some State.Unmounting
  else if input = "dead" then some State.Dead
  else if input = "waiting" then some State.Waiting
  else if input = "running" then some State.Running
  else if input = "failed" then some State.Failed
  else none

/-- The `enum ClientRequests` of src/main.rs (lines 21-25). -/
inductive ClientRequests
  | PrepareDisconnect
  | EnableAutomounting
  deriving DecidableEq

/-- The three event sources of the `select!` loop, in the written
(biased) order of src/main.rs lines 118-137. -/
inductive Source
  | mountChange
  | automountChange
  | userIntent
  deriving DecidableEq

/-- Externally observable effects of the loop body: a
`manager.receive_job_removed()` subscription, an issued unit operation
(a start or stop request sent on the bus), a desktop message via
`Notification::show_async`, and a tray display update via
`handle.update`. -/
inductive Effect
  | subscribeJobRemoved
  | unitOp (op : String)
  | notify (body : String)
  | displayUpdate (who : Source) (s : State)
  deriving DecidableEq

/-- The relevant field of the polkit `CheckAuthorization` reply. -/
structure AuthResult where
  is_authorized : Bool
  deriving DecidableEq

/-- Result of one pass through a loop branch: continue with the next
iteration, return from `main` with an error (a `?` fired), or abort via
a Rust `panic!` (a failing `.unwrap()`). -/
inductive Outcome
  | continued
  | exited (e : String)
  | panicked
  deriving DecidableEq

/-- The deduplication core of the two state-change branches
(lines 124-127 and 132-135): assign the memoized state and emit the new
state only when the freshly classified state differs from the memoized
one; otherwise do nothing. Returns the new memoized state and the
emission, if any. -/
def dedup_step (memo new : State) : State × Option State :=
  if new ≠ memo then (new, some new) else (memo, none)

/-- Iteration of `dedup_step` over a sequence of classified states,
collecting the emitted display updates in order. -/
def dedup_run (memo : State) : List State → State × List State
  | [] => (memo, [])
  | s :: rest =>
    let p := dedup_step memo s
    let q := dedup_run p.1 rest
    (q.1, p.2.toList ++ q.2)

/-- One state-change branch of the loop (lines 121-127 resp. 129-135)
for the tracked unit `who`, given the memoized state `memo`.
`item = none` models the signal stream yielding `None`, on which
`s.unwrap()` panics; `item = some (Except.error e)` models the
follow-up property read `.get().await` failing, on which the second
`.unwrap()` panics; an unclassifiable token panics inside
`State::from_substates`. Otherwise the branch is total and returns the
new memoized state together with the display-update effects. -/
def handle_state_change (who : Source) (item : Option (Except String String))
    (memo : State) : Option (State × List Effect) :=
  match item with
  | none => none
  | some (Except.error _) => none
  | some (Except.ok tok) =>
    match State.from_substates tok with
    | none => none
    | some new =>
      match dedup_step memo new with
      | (m, some s) => some (m, [Effect.displayUpdate who s])
      | (m, none) => some (m, [])

/-- The `select! { biased; ... }` of lines 119-137: branches are polled
in the written order mount change, automount change, user intent.
`intent = none` means `events.recv()` is not ready; `intent = some none`
means `recv` completed with `None` (all senders dropped), on which the
`Some(req)` pattern fails and the branch is disabled for this poll;
`intent = some (some req)` means a request was dequeued. The result is
the branch serviced this iteration, `none` when no branch runs and the
loop keeps waiting. -/
def select_biased (mount_ready automount_ready : Bool)
    (intent : Option (Option ClientRequests)) : Option Source :=
  if mount_ready then some Source.mountChange
  else if automount_ready then some Source.automountChange
  else
    match intent with
    | some (some _) => some Source.userIntent
    | _ => none

/-- The drain loop of `job_wait` (lines 188-193): consume job-removed
events until one carries the identifier of the issued job. `none`
models the stream ending, on which
`removed_stream.next().await.unwrap()` panics; an event whose argument
decoding `removed.args()?` fails propagates that error. On a match the
function returns `Except.ok` together with the remaining, unconsumed
events, so that the consumed prefix is visible in the statement of the
theorems below. -/
def drain (job : Nat) :
    List (Except String Nat) → Option (Except String (List (Except String Nat)))
  | [] => none
  | Except.error e :: _ => some (Except.error e)
  | Except.ok j :: rest =>
    if j = job then some (Except.ok rest) else drain job rest

/-- `job_wait` (lines 180-194). The effect trace records that the
subscription `manager.receive_job_removed()` happens first and the
operation is issued second: `job_future` is a lazy Rust future created
at the call site, and the underlying start/stop request is only sent
when it is first polled, at `job_future.await`, after the subscription.
`job_future` carries the synchronous acknowledgment (the job
identifier, as a number standing for the job object path) or the
request failure, which `?` propagates without touching the stream;
`events` is the content of the freshly subscribed stream. -/
def job_wait (op : String) (job_future : Except String Nat)
    (events : List (Except String Nat)) :
    List Effect × Option (Except String (List (Except String Nat))) :=
  ([Effect.subscribeJobRemoved, Effect.unitOp op],
   match job_future with
   | Except.error e => some (Except.error e)
   | Except.ok job => drain job events)

/-- The user-intent branch of the loop (lines 137-175). Inputs model
the external awaits: `authorization` is the result of
`authority.check_authorization` (a failure there fires `?`);
`a_job`, `m_job`, `s_job` are the acknowledgments of
`automount.stop`, `mount.stop` and `automount.start`; `a_ev`, `m_ev`,
`s_ev` the contents of the respective job-removed subscriptions;
`show_result` the result of `Notification::show_async`, on which `?`
is also applied. A denied authorization hits `continue` before any
operation; an approved `PrepareDisconnect` runs the two stop
correlations under `try_join!` (both futures are started, so both
effect traces occur) and only on both succeeding shows the notice;
an approved `EnableAutomounting` runs the single start correlation.
The branch never touches the memoized unit states, so no
`displayUpdate` effect can occur here. -/
def handle_intent (authorization : Except String AuthResult)
    (a_job m_job s_job : Except String Nat)
    (a_ev m_ev s_ev : List (Except String Nat))
    (show_result : Except String Unit)
    (req : ClientRequests) : List Effect × Outcome :=
  match authorization with
  | Except.error e => ([], Outcome.exited e)
  | Except.ok result =>
    if !result.is_authorized then ([], Outcome.continued)
    else
      match req with
      | ClientRequests.PrepareDisconnect =>
        let aw := job_wait "automount.stop" a_job a_ev
        let mw := job_wait "mount.stop" m_job m_ev
        match aw.2, mw.2 with
        | none, _ => (aw.1 ++ mw.1, Outcome.panicked)
        | _, none => (aw.1 ++ mw.1, Outcome.panicked)
        | some (Except.error e), _ => (aw.1 ++ mw.1, Outcome.exited e)
        | _, some (Except.error e) => (aw.1 ++ mw.1, Outcome.exited e)
        | some (Except.ok _), some (Except.ok _) =>
          match show_result with
          | Except.error e => (aw.1 ++ mw.1, Outcome.exited e)
          | Except.ok _ =>
            (aw.1 ++ mw.1 ++ [Effect.notify "Drive has been fully unmounted"],
             Outcome.continued)
      | ClientRequests.EnableAutomounting =>
        let sw := job_wait "automount.start" s_job s_ev
        match sw.2 with
        | none => (sw.1, Outcome.panicked)
        | some (Except.error e) => (sw.1, Outcome.exited e)
        | some (Except.ok _) =>
          match show_result with
          | Except.error e => (sw.1, Outcome.exited e)
          | Except.ok _ =>
            (sw.1 ++ [Effect.notify "Automounting has been enabled"],
             Outcome.continued)

/-- A job-removed event that the drain loop of `job_wait` will discard:
well formed, with an identifier different from the issued job. -/
def noise (job : Nat) : Except String Nat → Bool
  | Except.ok j => j != job
  | Except.error _ => false

theorem dedup_run_const (memo : State) :
    ∀ l : List State, (∀ x ∈ l, x = memo) → dedup_run memo l = (memo, []) := by
  intro l
  induction l with
  | nil => intro _; rfl
  | cons x xs ih =>
    intro hl
    have hx : x = memo := hl x (List.mem_cons_self x xs)
    subst hx
    have hxs : ∀ y ∈ xs, y = x := fun y hy => hl y (List.mem_cons_of_mem _ hy)
    simp [dedup_run, dedup_step, ih hxs]

theorem drain_skips (job : Nat) (before after : List (Except String Nat))
    (hb : ∀ e ∈ before, noise job e = true) :
    drain job (before ++ Except.ok job :: after) = some (Except.ok after) := by
  induction before with
  | nil => simp [drain]
  | cons e rest ih =>
    have he : noise job e = true := hb e (List.mem_cons_self e rest)
    have hrest : ∀ y ∈ rest, noise job y = true :=
      fun y hy => hb y (List.mem_cons_of_mem _ hy)
    cases e with
    | error s => simp [noise] at he
    | ok j =>
      have hj : j ≠ job := by simpa [noise] using he
      simp [drain, hj, ih hrest]

/-- C4: `State.from_substates` classifies "mounted" and "mounting-done"
both as `Mounted`, classifies each of the six other named tokens as its
unique corresponding state, and on every other token returns `none`,
the model of the unrecoverable `panic!` arm, never a state. -/
theorem from_substates_spec (s : String)
    (hs : s ∉ ["mounted", "mounting-done", "mounting", "unmounting", "dead",
      "waiting", "running", "failed"]) :
    State.from_substates "mounted" = some State.Mounted ∧
    State.from_substates "mounting-done" = some State.Mounted ∧
    State.from_substates "mounting" = some State.Mounting ∧
    State.from_substates "unmounting" = some State.Unmounting ∧
    State.from_substates "dead" = some State.Dead ∧
    State.from_substates "waiting" = some State.Waiting ∧
    State.from_substates "running" = some State.Running ∧
    State.from_substates "failed" = some State.Failed ∧
    State.from_substates s = none := by
  refine ⟨rfl, rfl, rfl, rfl, rfl, rfl, rfl, rfl, ?_⟩
  simp only [List.mem_cons, List.not_mem_nil, or_false, not_or] at hs
  obtain ⟨h1, h2, h3, h4, h5, h6, h7, h8⟩ := hs
  simp [State.from_substates, h1, h2, h3, h4, h5, h6, h7, h8]

theorem from_substates_spec_witness :
    ("bogus" ∉ ["mounted", "mounting-done", "mounting", "unmounting", "dead",
      "waiting", "running", "failed"]) ∧
    State.from_substates "bogus" = none :=
  ⟨by decide, (from_substates_spec "bogus" (by decide)).2.2.2.2.2.2.2.2⟩

/-- C3: over the classified states of one tracked unit, a run in which
every classification equals the memoized state emits no display update;
a run whose classifications alternate A, B, A starting from memoized
state A emits exactly the two updates B then A, in that order, and
leaves the memoized state equal to the last classified state A. -/
theorem dedup_invariant (memo A B : State) (l : List State)
    (hl : ∀ x ∈ l, x = memo) (hAB : A ≠ B) :
    (dedup_run memo l).2 = [] ∧
    dedup_run A [A, B, A] = (A, [B, A]) := by
  refine ⟨by rw [dedup_run_const memo l hl], ?_⟩
  simp [dedup_run, dedup_step, hAB, Ne.symm hAB]

theorem dedup_invariant_witness :
    (∀ x ∈ [State.Dead, State.Dead], x = State.Dead) ∧
    State.Dead ≠ State.Waiting ∧
    ((dedup_run State.Dead [State.Dead, State.Dead]).2 = [] ∧
      dedup_run State.Dead [State.Dead, State.Waiting, State.Dead] =
        (State.Dead, [State.Waiting, State.Dead])) :=
  ⟨by decide, by decide,
    dedup_invariant State.Dead State.Dead State.Waiting
      [State.Dead, State.Dead] (by decide) (by decide)⟩

/-- C1: with the operation acknowledged as job `job`, and the
subscribed stream holding any number of noise events before the
matching one and anything at all after it, `job_wait` returns success
exactly on reaching the matching event: the noise prefix is consumed
and discarded, the suffix is left unread, and the effect trace places
the stream subscription (index 0) strictly before the issuing of the
operation (index 1). -/
theorem job_wait_race_free (op : String) (job : Nat)
    (before after : List (Except String Nat))
    (hb : ∀ e ∈ before, noise job e = true) :
    job_wait op (Except.ok job) (before ++ Except.ok job :: after) =
      ([Effect.subscribeJobRemoved, Effect.unitOp op],
        some (Except.ok after)) := by
  simp [job_wait, drain_skips job before after hb]

theorem job_wait_race_free_witness :
    (∀ e ∈ [Except.ok (0 : Nat)], noise 1 e = true) ∧
    job_wait "automount.start" (Except.ok 1)
        ([Except.ok 0] ++ Except.ok 1 :: [Except.ok 2]) =
      ([Effect.subscribeJobRemoved, Effect.unitOp "automount.start"],
        some (Except.ok [Except.ok 2])) :=
  ⟨by decide,
    job_wait_race_free "automount.start" 1 [Except.ok 0] [Except.ok 2] (by decide)⟩

/-- C5: within one iteration of the biased select, a ready mount
state-change is serviced ahead of everything else, a ready automount
state-change is serviced ahead of the user-intent queue, a user intent
is serviced only when neither state-change source is ready, and a ready
state-change event is never outrun by a ready user intent. -/
theorem select_priority (m a : Bool) (i : Option (Option ClientRequests))
    (req : ClientRequests) (h : m = true ∨ a = true) :
    select_biased true a i = some Source.mountChange ∧
    select_biased false true i = some Source.automountChange ∧
    select_biased false false (some (some req)) = some Source.userIntent ∧
    select_biased m a i ≠ some Source.userIntent := by
  refine ⟨rfl, rfl, rfl, ?_⟩
  cases m with
  | true => simp [select_biased]
  | false =>
    have ha : a = true := h.resolve_left (by simp)
    subst ha
    simp [select_biased]

theorem select_priority_witness :
    ((true = true ∨ true = true) ∧
      (select_biased true true (some (some ClientRequests.PrepareDisconnect)) =
          some Source.mountChange ∧
        select_biased false true (some (some ClientRequests.PrepareDisconnect)) =
          some Source.automountChange ∧
        select_biased false false (some (some ClientRequests.PrepareDisconnect)) =
          some Source.userIntent ∧
        select_biased true true (some (some ClientRequests.PrepareDisconnect)) ≠
          some Source.userIntent)) :=
  ⟨Or.inl rfl,
    select_priority true true (some (some ClientRequests.PrepareDisconnect))
      ClientRequests.PrepareDisconnect (Or.inl rfl)⟩

/-- C9: when the user-intent channel is closed, `events.recv()`
completes with `None`, the `Some(req)` pattern fails and the branch is
disabled: it is never serviced, a ready state-change branch is serviced
exactly as when the queue is merely silent, and when nothing else is
ready the select keeps waiting (`none`) instead of panicking or
terminating, so the loop goes on processing state changes. -/
theorem closed_channel_harmless (m a : Bool) :
    select_biased m a (some none) ≠ some Source.userIntent ∧
    select_biased m a (some none) = select_biased m a none ∧
    select_biased true a (some none) = some Source.mountChange ∧
    select_biased false true (some none) = some Source.automountChange ∧
    select_biased false false (some none) = none := by
  cases m <;> cases a <;> simp [select_biased]

/-- C6: a denied authorization (`is_authorized = false`) hits the
`continue` before any action is dispatched: whatever the intent and
whatever the other awaits would have returned, the branch produces no
effect at all — no unit operation, no subscription, no desktop notice,
no display update — and the loop continues rather than terminating.
The branch never writes the memoized unit states, which the model shows
by not taking them as inputs. -/
theorem denial_no_effect (a_job m_job s_job : Except String Nat)
    (a_ev m_ev s_ev : List (Except String Nat))
    (show_result : Except String Unit) (req : ClientRequests) :
    handle_intent (Except.ok ⟨false⟩) a_job m_job s_job a_ev m_ev s_ev
        show_result req = ([], Outcome.continued) := rfl

/-- C10: the state-change branch panics, rather than returning an error
value, when the sub-state-changed stream yields no item (the first
`.unwrap()`) or the follow-up property read fails (the second
`.unwrap()`); under the precondition that an item arrives, the read
succeeds and the token classifies, the branch is total and performs the
dedup step. -/
theorem state_change_totality (who : Source) (memo : State) (e tok : String)
    (st : State) (hc : State.from_substates tok = some st) :
    handle_state_change who none memo = none ∧
    handle_state_change who (some (Except.error e)) memo = none ∧
    handle_state_change who (some (Except.ok tok)) memo =
      some (if st = memo then (memo, [])
        else (st, [Effect.displayUpdate who st])) := by
  refine ⟨rfl, rfl, ?_⟩
  simp only [handle_state_change, hc]
  by_cases h : st = memo <;> simp [dedup_step, h]

theorem state_change_totality_witness :
    State.from_substates "waiting" = some State.Waiting ∧
    (handle_state_change Source.automountChange none State.Dead = none ∧
      handle_state_change Source.automountChange (some (Except.error "lost"))
        State.Dead = none ∧
      handle_state_change Source.automountChange (some (Except.ok "waiting"))
        State.Dead =
        some (if State.Waiting = State.Dead then (State.Dead, [])
          else (State.Waiting,
            [Effect.displayUpdate Source.automountChange State.Waiting]))) :=
  ⟨rfl, state_change_totality Source.automountChange State.Dead "lost" "waiting"
    State.Waiting rfl⟩

/-- C2: for an approved `PrepareDisconnect`, when neither correlation
panics, the compound action reports completion — and emits the
completion notice — exactly when both stop correlations have
individually matched their completion events (and the notice call
succeeds); if either stop correlation fails, the whole action aborts
with an error outcome and no notice appears among the effects. -/
theorem disconnect_join (a_job m_job s_job : Except String Nat)
    (a_ev m_ev s_ev : List (Except String Nat))
    (show_result : Except String Unit)
    (aw mw : Except String (List (Except String Nat)))
    (ha : (job_wait "automount.stop" a_job a_ev).2 = some aw)
    (hm : (job_wait "mount.stop" m_job m_ev).2 = some mw) :
    ((∃ ra, aw = Except.ok ra) → (∃ rm, mw = Except.ok rm) →
      show_result = Except.ok () →
      handle_intent (Except.ok ⟨true⟩) a_job m_job s_job a_ev m_ev s_ev
          show_result ClientRequests.PrepareDisconnect =
        ([Effect.subscribeJobRemoved, Effect.unitOp "automount.stop",
          Effect.subscribeJobRemoved, Effect.unitOp "mount.stop",
          Effect.notify "Drive has been fully unmounted"],
         Outcome.continued)) ∧
    (((∃ ea, aw = Except.error ea) ∨ (∃ em, mw = Except.error em)) →
      (∃ er, (handle_intent (Except.ok ⟨true⟩) a_job m_job s_job a_ev m_ev
          s_ev show_result ClientRequests.PrepareDisconnect).2 =
        Outcome.exited er) ∧
      ∀ b, Effect.notify b ∉ (handle_intent (Except.ok ⟨true⟩) a_job m_job
          s_job a_ev m_ev s_ev show_result
          ClientRequests.PrepareDisconnect).1) := by
  constructor
  · rintro ⟨ra, rfl⟩ ⟨rm, rfl⟩ rfl
    simp only [handle_intent]
    rw [ha, hm]
    simp [job_wait]
  · intro hfail
    simp only [handle_intent]
    rw [ha, hm]
    rcases hfail with ⟨ea, rfl⟩ | ⟨em, rfl⟩
    · cases mw <;> simp [job_wait]
    · cases aw <;> simp [job_wait]

theorem disconnect_join_witness :
    ((job_wait "automount.stop" (Except.ok 1) [Except.ok 1]).2 =
        some (Except.ok ([] : List (Except String Nat))) ∧
      (job_wait "mount.stop" (Except.ok 2) [Except.ok 2]).2 =
        some (Except.ok ([] : List (Except String Nat)))) ∧
    (((∃ ra, (Except.ok ([] : List (Except String Nat)) :
          Except String (List (Except String Nat))) = Except.ok ra) →
      (∃ rm, (Except.ok ([] : List (Except String Nat)) :
          Except String (List (Except String Nat))) = Except.ok rm) →
      (Except.ok () : Except String Unit) = Except.ok () →
      handle_intent (Except.ok ⟨true⟩) (Except.ok 1) (Except.ok 2)
          (Except.ok 0) [Except.ok 1] [Except.ok 2] [] (Except.ok ())
          ClientRequests.PrepareDisconnect =
        ([Effect.subscribeJobRemoved, Effect.unitOp "automount.stop",
          Effect.subscribeJobRemoved, Effect.unitOp "mount.stop",
          Effect.notify "Drive has been fully unmounted"],
         Outcome.continued)) ∧
    (((∃ ea, (Except.ok ([] : List (Except String Nat)) :
          Except String (List (Except String Nat))) = Except.error ea) ∨
        (∃ em, (Except.ok ([] : List (Except String Nat)) :
          Except String (List (Except String Nat))) = Except.error em)) →
      (∃ er, (handle_intent (Except.ok ⟨true⟩) (Except.ok 1) (Except.ok 2)
          (Except.ok 0) [Except.ok 1] [Except.ok 2] [] (Except.ok ())
          ClientRequests.PrepareDisconnect).2 = Outcome.exited er) ∧
      ∀ b, Effect.notify b ∉ (handle_intent (Except.ok ⟨true⟩) (Except.ok 1)
          (Except.ok 2) (Except.ok 0) [Except.ok 1] [Except.ok 2] []
          (Except.ok ()) ClientRequests.PrepareDisconnect).1)) :=
  ⟨⟨rfl, rfl⟩,
    disconnect_join (Except.ok 1) (Except.ok 2) (Except.ok 0) [Except.ok 1]
      [Except.ok 2] [] (Except.ok ()) (Except.ok []) (Except.ok []) rfl rfl⟩

/-- C7, as stated, is false: the subscription to the job-finished
stream is not unique. In this concrete approved compound disconnect the
effect trace contains two `receive_job_removed` subscriptions, one made
by each of the two `job_wait` calls — not exactly one. -/
theorem per_job_subscription_counterexample :
    ((handle_intent (Except.ok ⟨true⟩) (Except.ok 1) (Except.ok 2)
        (Except.ok 0) [Except.ok 1] [Except.ok 2] [] (Except.ok ())
        ClientRequests.PrepareDisconnect).1.count
      Effect.subscribeJobRemoved = 2) ∧
    ¬ ((handle_intent (Except.ok ⟨true⟩) (Except.ok 1) (Except.ok 2)
        (Except.ok 0) [Except.ok 1] [Except.ok 2] [] (Except.ok ())
        ClientRequests.PrepareDisconnect).1.count
      Effect.subscribeJobRemoved = 1) := by
  decide

/-- C7 amended: the job-finished stream is subscribed once per
correlation, not once globally: every `job_wait` call makes its own
subscription, placed before its operation is issued, and an approved
compound disconnect therefore performs exactly two subscriptions, one
per stop job, each multiplexed by identifier matching. -/
theorem per_job_subscription (a_job m_job s_job : Except String Nat)
    (a_ev m_ev s_ev : List (Except String Nat))
    (show_result : Except String Unit) :
    ((handle_intent (Except.ok ⟨true⟩) a_job m_job s_job a_ev m_ev s_ev
        show_result ClientRequests.PrepareDisconnect).1.count
      Effect.subscribeJobRemoved = 2) ∧
    (∀ op job ev, (job_wait op job ev).1 =
      [Effect.subscribeJobRemoved, Effect.unitOp op]) := by
  refine ⟨?_, fun op job ev => rfl⟩
  simp only [handle_intent]
  rcases h1 : (job_wait "automount.stop" a_job a_ev).2 with _ | (e1 | r1) <;>
    rcases h2 : (job_wait "mount.stop" m_job m_ev).2 with _ | (e2 | r2) <;>
    cases show_result <;>
    simp [job_wait, List.count_append, List.count_cons, List.count_nil]

/-- C8, as stated, is false: in this concrete approved disconnect both
stop jobs match, yet a failure of the notification-presentation call
makes the loop exit with that error instead of continuing. -/
theorem notify_failure_fatal_counterexample :
    (handle_intent (Except.ok ⟨true⟩) (Except.ok 1) (Except.ok 2)
        (Except.ok 0) [Except.ok 1] [Except.ok 2] []
        (Except.error "display error")
        ClientRequests.PrepareDisconnect).2 =
      Outcome.exited "display error" ∧
    (handle_intent (Except.ok ⟨true⟩) (Except.ok 1) (Except.ok 2)
        (Except.ok 0) [Except.ok 1] [Except.ok 2] []
        (Except.error "display error")
        ClientRequests.PrepareDisconnect).2 ≠ Outcome.continued := by
  exact ⟨rfl, by decide⟩

/-- C8 amended: the completion notice is not fire-and-forget. For
either approved action, when every involved job correlation has
matched, a failure of `Notification::show_async` propagates through `?`
and the branch exits with that error, terminating the loop and the
process, instead of continuing unaffected. -/
theorem notify_failure_fatal (a_job m_job s_job : Except String Nat)
    (a_ev m_ev s_ev : List (Except String Nat)) (err : String)
    (ra rm rs : List (Except String Nat)) (req : ClientRequests)
    (ha : (job_wait "automount.stop" a_job a_ev).2 = some (Except.ok ra))
    (hm : (job_wait "mount.stop" m_job m_ev).2 = some (Except.ok rm))
    (hs : (job_wait "automount.start" s_job s_ev).2 = some (Except.ok rs)) :
    (handle_intent (Except.ok ⟨true⟩) a_job m_job s_job a_ev m_ev s_ev
        (Except.error err) req).2 = Outcome.exited err := by
  cases req with
  | PrepareDisconnect =>
    simp only [handle_intent]
    rw [ha, hm]
    simp [job_wait]
  | EnableAutomounting =>
    simp only [handle_intent]
    rw [hs]
    simp [job_wait]

theorem notify_failure_fatal_witness :
    ((job_wait "automount.stop" (Except.ok 1) [Except.ok 1]).2 =
        some (Except.ok ([] : List (Except String Nat))) ∧
      (job_wait "mount.stop" (Except.ok 2) [Except.ok 2]).2 =
        some (Except.ok ([] : List (Except String Nat))) ∧
      (job_wait "automount.start" (Except.ok 3) [Except.ok 3]).2 =
        some (Except.ok ([] : List (Except String Nat)))) ∧
    (handle_intent (Except.ok ⟨true⟩) (Except.ok 1) (Except.ok 2)
        (Except.ok 3) [Except.ok 1] [Except.ok 2] [Except.ok 3]
        (Except.error "display error")
        ClientRequests.EnableAutomounting).2 =
      Outcome.exited "display error" :=
  ⟨⟨rfl, rfl, rfl⟩,
    notify_failure_fatal (Except.ok 1) (Except.ok 2) (Except.ok 3)
      [Except.ok 1] [Except.ok 2] [Except.ok 3] "display error" [] [] []
      ClientRequests.EnableAutomounting rfl rfl rfl⟩

end Diski
